import Mathlib

/-!
Shallow embedding of the mini social app backend (`app/app.py`, `app/db.py`).

The database is modelled as lists of rows (one list per table of `db.py`);
each HTTP handler of `app.py` becomes a pure function from the store and the
request data to a response paired with the updated store.  `HTTPException`
becomes the `ApiError` error type; a handler that raises before any session
mutation returns the error together with the unchanged store.  UUIDs and
timestamps are modelled as naturals.  The external collaborators (auth,
ImageKit upload) are modelled by their observable behaviour: the resolved
caller is an argument, and the upload collaborator's answer (or a raised
I/O exception) is an explicit scenario argument.
-/

namespace MiniSocial

/-- A row of the `user` table (`db.py`, `User`): id plus the email used by
the feed and the comment response. -/
structure UserR where
  id : Nat
  email : String
deriving DecidableEq

/-- A row of the `posts` table (`db.py`, `Post`). -/
structure PostR where
  id : Nat
  user_id : Nat
  caption : Option String
  url : String
  file_type : String
  file_name : String
  created_at : Nat
deriving DecidableEq

/-- A row of the `likes` table (`db.py`, `Like`). -/
structure LikeR where
  id : Nat
  user_id : Nat
  post_id : Nat
  created_at : Nat
deriving DecidableEq

/-- A row of the `comments` table (`db.py`, `Comment`). -/
structure CommentR where
  id : Nat
  post_id : Nat
  user_id : Nat
  content : String
  created_at : Nat
deriving DecidableEq

/-- The relational store: the four tables of `db.py`. -/
structure DB where
  users : List UserR
  posts : List PostR
  likes : List LikeR
  comments : List CommentR
deriving DecidableEq

/-- `HTTPException` as raised by the handlers in `app.py`, tagged by the
status code used at each raise site. -/
inductive ApiError where
  | notFound (detail : String)
  | forbidden (detail : String)
  | internal (detail : String)
deriving DecidableEq

/-- HTTP status code of an `ApiError`. -/
def ApiError.status : ApiError → Nat
  | .notFound _ => 404
  | .forbidden _ => 403
  | .internal _ => 500

/-- Python's `s.startswith(pat)` on character lists: `hasLead pat s` is true
when `pat` is an initial run of `s`. -/
def hasLead : List Char → List Char → Bool
  | [], _ => true
  | _ :: _, [] => false
  | p :: ps, c :: cs => p = c && hasLead ps cs

/-- The characters before the first `@` of a list. -/
def takeBeforeAt : List Char → List Char
  | [] => []
  | c :: cs => if c = '@' then [] else c :: takeBeforeAt cs

/-- `email.split("@")[0]` (`app.py` lines 104 and 195): the part of the
string before the first `@`, i.e. the longest `@`-free leading substring
(the whole string when no `@` occurs, exactly as Python's `split`). -/
def emailLocal (e : String) : String :=
  ⟨takeBeforeAt e.data⟩

/-- The likes of one post, i.e. the `Post.likes` relationship of `db.py`. -/
def postLikes (db : DB) (pid : Nat) : List LikeR :=
  db.likes.filter (fun l => l.post_id == pid)

/-- One entry of the feed response (`app.py`, `get_feed`, lines 96–108). -/
structure FeedEntry where
  id : Nat
  caption : String
  url : String
  file_type : String
  file_name : String
  created_at : Nat
  is_owner : Bool
  email : String
  like_count : Nat
  is_liked : Bool
  comments : List String
deriving DecidableEq

/-- The dictionary built for one post in `get_feed` (`app.py` lines 96–108);
`u` is the optional current user. -/
def feedEntry (db : DB) (u : Option UserR) (p : PostR) : FeedEntry :=
  { id := p.id
    caption := p.caption.getD ""
    url := p.url
    file_type := p.file_type
    file_name := p.file_name
    created_at := p.created_at
    is_owner := match u with
      | none => false
      | some usr => p.user_id == usr.id
    email := match db.users.find? (fun w => w.id == p.user_id) with
      | some author => emailLocal author.email
      | none => "unknown"
    like_count := (postLikes db p.id).length
    is_liked := match u with
      | none => false
      | some usr => (postLikes db p.id).any (fun l => l.user_id == usr.id)
    comments := [] }

/-- `a` goes before `b` in the feed: `order_by(Post.created_at.desc())`. -/
def createdDesc (a b : PostR) : Prop :=
  b.created_at ≤ a.created_at

instance : DecidableRel createdDesc := fun a b =>
  inferInstanceAs (Decidable (b.created_at ≤ a.created_at))

instance : IsTotal PostR createdDesc :=
  ⟨fun a b => Nat.le_total b.created_at a.created_at⟩

instance : IsTrans PostR createdDesc :=
  ⟨fun _ _ _ hab hbc => Nat.le_trans hbc hab⟩

/-- The feed query result: all posts sorted by creation time, descending
(`app.py` lines 82–92). -/
def sortByCreatedDesc (ps : List PostR) : List PostR :=
  ps.insertionSort createdDesc

/-- `GET /feed` (`app.py`, `get_feed`): sorted posts mapped to entries. -/
def get_feed (db : DB) (u : Option UserR) : List FeedEntry :=
  (sortByCreatedDesc db.posts).map (feedEntry db u)

/-- The store after a post delete whose flush succeeds: the post row goes,
and `Post.comments` carries `cascade="all, delete-orphan"` (with the comment
foreign key `ondelete="CASCADE"`), so the post's comments go with it.  Only
reached when no Like row references the post — see `delete_post`. -/
def deletePostCascade (db : DB) (pid : Nat) : DB :=
  { db with
    posts := db.posts.filter (fun q => q.id != pid)
    comments := db.comments.filter (fun c => c.post_id != pid) }

/-- `DELETE /posts/{post_id}` (`app.py`, `delete_post`, lines 112–130).
After the 404 and 403 checks, `session.delete(post)` is flushed at commit.
`Post.likes` (`db.py` line 49) declares no delete cascade, so the unit of
work de-associates the post's likes by nullifying `likes.post_id` — a
`nullable=False` column (`db.py` line 58) — so whenever Like rows reference
the post the commit raises `IntegrityError`; the handler does not catch it,
the request fails as a 500 and the transaction rolls back, leaving the store
unchanged.  Only a post with no referencing likes is actually deleted,
together with its comments per the declared cascade. -/
def delete_post (db : DB) (u : UserR) (pid : Nat) :
    Except ApiError (Bool × String) × DB :=
  match db.posts.find? (fun p => p.id == pid) with
  | none => (.error (.notFound "Post not found"), db)
  | some post =>
    if post.user_id = u.id then
      if postLikes db pid = [] then
        (.ok (true, "Post deleted successfully"), deletePostCascade db pid)
      else
        (.error (.internal "IntegrityError: NOT NULL constraint failed: likes.post_id"), db)
    else
      (.error (.forbidden "You do not have permission to perform this action"), db)

/-- `POST /posts/{post_id}/like` (`app.py`, `like_post`, lines 133–154):
`nid`/`now` are the id and timestamp defaults a fresh `Like` row gets. -/
def like_post (db : DB) (u : UserR) (pid nid now : Nat) :
    Except ApiError String × DB :=
  match db.posts.find? (fun p => p.id == pid) with
  | none => (.error (.notFound "Post not found"), db)
  | some _ =>
    match db.likes.find? (fun l => l.user_id == u.id && l.post_id == pid) with
    | some _ => (.ok "Already liked", db)
    | none =>
      (.ok "Liked successfully",
        { db with likes := db.likes ++ [⟨nid, u.id, pid, now⟩] })

/-- `DELETE /posts/{post_id}/like` (`app.py`, `unlike_post`, lines 157–173). -/
def unlike_post (db : DB) (u : UserR) (pid : Nat) :
    Except ApiError String × DB :=
  match db.likes.find? (fun l => l.user_id == u.id && l.post_id == pid) with
  | none => (.error (.notFound "Not liked yet"), db)
  | some like =>
    (.ok "Unliked", { db with likes := db.likes.filter (fun l => l.id != like.id) })

/-- The JSON returned by `add_comment` (`app.py` lines 192–198). -/
structure CommentResponse where
  id : Nat
  content : String
  user_email : String
  created_at : Nat
  is_owner : Bool
deriving DecidableEq

/-- `POST /posts/{post_id}/comment` (`app.py`, `add_comment`, lines 176–198):
`cid`/`now` are the id and timestamp defaults the fresh `Comment` row gets. -/
def add_comment (db : DB) (u : UserR) (pid : Nat) (content : String)
    (cid now : Nat) : Except ApiError CommentResponse × DB :=
  match db.posts.find? (fun p => p.id == pid) with
  | none => (.error (.notFound "Post not found"), db)
  | some _ =>
    let c : CommentR := ⟨cid, pid, u.id, content, now⟩
    (.ok { id := c.id, content := c.content, user_email := emailLocal u.email,
           created_at := c.created_at, is_owner := true },
      { db with comments := db.comments ++ [c] })

/-- `DELETE /comments/{comment_id}` (`app.py`, `delete_comment`, lines 200–214). -/
def delete_comment (db : DB) (u : UserR) (cid : Nat) :
    Except ApiError String × DB :=
  match db.comments.find? (fun c => c.id == cid) with
  | none => (.error (.notFound "Comment not found"), db)
  | some c =>
    if c.user_id = u.id then
      (.ok "Comment deleted", { db with comments := db.comments.filter (fun x => x.id != cid) })
    else
      (.error (.forbidden "Not your comment"), db)

/-- What the ImageKit collaborator call observable to `upload_file` does:
it either returns a result object (with `response_metadata.http_status_code`,
`url` and `name`), or some step of the `try` block raises — before the
temporary file exists, or after. -/
structure UploadResult where
  http_status_code : Nat
  url : String
  name : String
deriving DecidableEq

inductive UploadScenario where
  | raiseBeforeTemp (msg : String)
  | raiseAfterTemp (msg : String)
  | collabReturns (r : UploadResult)
deriving DecidableEq

/-- Outcome of one `POST /upload` request: the HTTP response (`.ok none` is
the implicit `None` return that FastAPI serialises as a 200 with null body),
the store after the request, and the end state of the temporary local file. -/
structure UploadOutput where
  response : Except ApiError (Option PostR)
  db : DB
  tempCreated : Bool
  tempExistsAfter : Bool

/-- `POST /upload` (`app.py`, `upload_file`, lines 32–72).  The `finally`
block unlinks the temporary file whenever it was created, on every exit
path, so `tempExistsAfter` is false in each branch with `tempCreated` true;
an exception reaches the caller as a 500 `HTTPException`; a collaborator
status of 200 writes the `Post` row; any other status falls off the end of
the `try` block, returning `None` with no error and writing nothing. -/
def upload_file (db : DB) (u : UserR) (caption contentType : String)
    (scenario : UploadScenario) (newId now : Nat) : UploadOutput :=
  match scenario with
  | .raiseBeforeTemp msg =>
    { response := .error (.internal msg), db := db,
      tempCreated := false, tempExistsAfter := false }
  | .raiseAfterTemp msg =>
    { response := .error (.internal msg), db := db,
      tempCreated := true, tempExistsAfter := false }
  | .collabReturns r =>
    if r.http_status_code = 200 then
      let post : PostR :=
        { id := newId, user_id := u.id, caption := some caption, url := r.url,
          file_type := if hasLead "video/".data contentType.data then "video" else "image",
          file_name := r.name, created_at := now }
      { response := .ok (some post), db := { db with posts := db.posts ++ [post] },
        tempCreated := true, tempExistsAfter := false }
    else
      { response := .ok none, db := db,
        tempCreated := true, tempExistsAfter := false }

/-! ### Concrete fixtures (used by witnesses and counterexamples) -/

def aliceU : UserR := { id := 1, email := "alice@example.com" }

def bobU : UserR := { id := 2, email := "bob@site.org" }

def post1 : PostR :=
  { id := 10, user_id := 1, caption := some "hi", url := "http://a/1",
    file_type := "image", file_name := "one", created_at := 100 }

def post2 : PostR :=
  { id := 11, user_id := 2, caption := none, url := "http://a/2",
    file_type := "video", file_name := "two", created_at := 200 }

def like1 : LikeR := { id := 30, user_id := 2, post_id := 10, created_at := 150 }

def comment1 : CommentR :=
  { id := 40, post_id := 10, user_id := 1, content := "nice", created_at := 160 }

def sampleDB : DB :=
  { users := [aliceU, bobU], posts := [post1, post2],
    likes := [like1], comments := [comment1] }

/-! ### Theorems -/

/-- C1: for every feed request by caller `u` and every post `p` in the store,
the entry the feed builds for `p` appears in the returned list, its
`is_liked` field is true iff the caller is authenticated as some user `usr`
and a Like row with user id `usr.id` and post id `p.id` exists in the store,
and it is always false for an unauthenticated caller. -/
theorem feed_is_liked_iff (db : DB) (u : Option UserR) (p : PostR)
    (hp : p ∈ db.posts) :
    feedEntry db u p ∈ get_feed db u ∧
    ((feedEntry db u p).is_liked = true ↔
      ∃ usr, u = some usr ∧ ∃ l ∈ db.likes, l.user_id = usr.id ∧ l.post_id = p.id) ∧
    (u = none → (feedEntry db u p).is_liked = false) := by
  refine ⟨?_, ?_, ?_⟩
  · exact List.mem_map_of_mem _
      (((List.perm_insertionSort createdDesc db.posts).mem_iff).mpr hp)
  · cases u with
    | none => simp [feedEntry]
    | some usr =>
      simp only [feedEntry, postLikes, List.any_eq_true, List.mem_filter,
        beq_iff_eq, Option.some.injEq]
      constructor
      · rintro ⟨l, ⟨hl, hpid⟩, huid⟩
        exact ⟨usr, rfl, l, hl, huid, hpid⟩
      · rintro ⟨usr2, rfl, l, hl, huid, hpid⟩
        exact ⟨l, ⟨hl, hpid⟩, huid⟩
  · rintro rfl
    simp [feedEntry]

/-- C1 witness: in the concrete store, Bob has liked post 1. -/
theorem feed_is_liked_iff_witness :
    post1 ∈ sampleDB.posts ∧
    (feedEntry sampleDB (some bobU) post1 ∈ get_feed sampleDB (some bobU) ∧
      ((feedEntry sampleDB (some bobU) post1).is_liked = true ↔
        ∃ usr, (some bobU : Option UserR) = some usr ∧
          ∃ l ∈ sampleDB.likes, l.user_id = usr.id ∧ l.post_id = post1.id) ∧
      ((some bobU : Option UserR) = none →
        (feedEntry sampleDB (some bobU) post1).is_liked = false)) :=
  ⟨by decide, feed_is_liked_iff sampleDB (some bobU) post1 (by decide)⟩

/-- C2: liking is idempotent — for an authenticated user `u` and an existing
post, when a Like row with `u.id` and the post id already exists, `like_post`
answers "Already liked" without error, leaves the whole store (in particular
the likes table) unchanged, and the post's like count is unchanged. -/
theorem like_post_idempotent (db : DB) (u : UserR) (pid nid now : Nat)
    (hpost : ∃ p ∈ db.posts, p.id = pid)
    (hliked : ∃ l ∈ db.likes, l.user_id = u.id ∧ l.post_id = pid) :
    like_post db u pid nid now = (.ok "Already liked", db) ∧
    (like_post db u pid nid now).2.likes = db.likes ∧
    (postLikes (like_post db u pid nid now).2 pid).length =
      (postLikes db pid).length := by
  obtain ⟨p, hp, hpid⟩ := hpost
  obtain ⟨q, hq⟩ : ∃ q, db.posts.find? (fun r => r.id == pid) = some q := by
    apply Option.isSome_iff_exists.mp
    rw [List.find?_isSome]
    exact ⟨p, hp, by simp [hpid]⟩
  obtain ⟨l0, hl0⟩ :
      ∃ l0, db.likes.find? (fun l => l.user_id == u.id && l.post_id == pid) = some l0 := by
    apply Option.isSome_iff_exists.mp
    rw [List.find?_isSome]
    obtain ⟨l, hl, h1, h2⟩ := hliked
    exact ⟨l, hl, by simp [h1, h2]⟩
  refine ⟨?_, ?_, ?_⟩ <;> simp [like_post, hq, hl0]

/-- C2 witness: Bob re-likes post 1 which he already likes. -/
theorem like_post_idempotent_witness :
    (∃ p ∈ sampleDB.posts, p.id = 10) ∧
    (∃ l ∈ sampleDB.likes, l.user_id = bobU.id ∧ l.post_id = 10) ∧
    (like_post sampleDB bobU 10 77 500 = (.ok "Already liked", sampleDB) ∧
      (like_post sampleDB bobU 10 77 500).2.likes = sampleDB.likes ∧
      (postLikes (like_post sampleDB bobU 10 77 500).2 10).length =
        (postLikes sampleDB 10).length) :=
  ⟨⟨post1, by decide, by decide⟩, ⟨like1, by decide, by decide, by decide⟩,
    like_post_idempotent sampleDB bobU 10 77 500
      ⟨post1, by decide, by decide⟩ ⟨like1, by decide, by decide, by decide⟩⟩

/-- C3: `delete_post` and `delete_comment` answer 404 (`notFound`) when the
resource is absent and 403 (`forbidden`) when the caller does not own it;
every error answer of either handler — 404, 403, and delete-post's
IntegrityError 500 on a post with likes — leaves the store unchanged; and
the resource is deleted only when the caller is the owner: a success answer
entails ownership and the resource being gone from the store. -/
theorem delete_ownership_checks (db : DB) (u : UserR) (pid cid : Nat) :
    (db.posts.find? (fun p => p.id == pid) = none →
      delete_post db u pid = (.error (.notFound "Post not found"), db)) ∧
    (∀ p, db.posts.find? (fun q => q.id == pid) = some p → p.user_id ≠ u.id →
      delete_post db u pid =
        (.error (.forbidden "You do not have permission to perform this action"), db)) ∧
    (∀ e, (delete_post db u pid).1 = .error e → (delete_post db u pid).2 = db) ∧
    (∀ r, (delete_post db u pid).1 = .ok r →
      (∃ p, db.posts.find? (fun q => q.id == pid) = some p ∧ p.user_id = u.id) ∧
      r = (true, "Post deleted successfully") ∧
      ∀ q ∈ (delete_post db u pid).2.posts, q.id ≠ pid) ∧
    (db.comments.find? (fun c => c.id == cid) = none →
      delete_comment db u cid = (.error (.notFound "Comment not found"), db)) ∧
    (∀ c, db.comments.find? (fun d => d.id == cid) = some c → c.user_id ≠ u.id →
      delete_comment db u cid = (.error (.forbidden "Not your comment"), db)) ∧
    (∀ c, db.comments.find? (fun d => d.id == cid) = some c → c.user_id = u.id →
      (delete_comment db u cid).1 = .ok "Comment deleted" ∧
      ∀ d ∈ (delete_comment db u cid).2.comments, d.id ≠ cid) ∧
    (∀ s, (delete_comment db u cid).1 = .ok s →
      ∃ c, db.comments.find? (fun d => d.id == cid) = some c ∧ c.user_id = u.id) ∧
    (ApiError.notFound "Post not found").status = 404 ∧
    (ApiError.forbidden "Not your comment").status = 403 := by
  refine ⟨?_, ?_, ?_, ?_, ?_, ?_, ?_, ?_, rfl, rfl⟩
  · intro hnone
    simp [delete_post, hnone]
  · intro p hfind hne
    simp [delete_post, hfind, hne]
  · intro e he
    cases hfind : db.posts.find? (fun q => q.id == pid) with
    | none => simp [delete_post, hfind]
    | some p =>
      by_cases hown : p.user_id = u.id
      · by_cases hl : postLikes db pid = []
        · simp [delete_post, hfind, hown, hl] at he
        · simp [delete_post, hfind, hown, hl]
      · simp [delete_post, hfind, hown]
  · intro r hr
    cases hfind : db.posts.find? (fun q => q.id == pid) with
    | none => simp [delete_post, hfind] at hr
    | some p =>
      by_cases hown : p.user_id = u.id
      · by_cases hl : postLikes db pid = []
        · refine ⟨⟨p, rfl, hown⟩, ?_, ?_⟩
          · simpa [delete_post, hfind, hown, hl] using hr.symm
          · intro q hq
            simp [delete_post, hfind, hown, hl, deletePostCascade,
              List.mem_filter] at hq
            exact hq.2
        · simp [delete_post, hfind, hown, hl] at hr
      · simp [delete_post, hfind, hown] at hr
  · intro hnone
    simp [delete_comment, hnone]
  · intro c hfind hne
    simp [delete_comment, hfind, hne]
  · intro c hfind hown
    refine ⟨by simp [delete_comment, hfind, hown], ?_⟩
    intro d hd
    simp [delete_comment, hfind, hown, List.mem_filter] at hd
    exact hd.2
  · intro s hs
    cases hfind : db.comments.find? (fun d => d.id == cid) with
    | none => simp [delete_comment, hfind] at hs
    | some c =>
      by_cases hown : c.user_id = u.id
      · exact ⟨c, rfl, hown⟩
      · simp [delete_comment, hfind, hown] at hs

/-- C3 witness: absent ids give 404; Bob deleting Alice's post (or her
comment) gives 403; Bob's delete of his like-free post 11 succeeds and
removes it (so ownership held); Alice's delete of her comment succeeds. -/
theorem delete_ownership_checks_witness :
    (delete_post sampleDB bobU 99 = (.error (.notFound "Post not found"), sampleDB)) ∧
    (delete_post sampleDB bobU 10 =
      (.error (.forbidden "You do not have permission to perform this action"), sampleDB)) ∧
    ((delete_post sampleDB aliceU 10).2 = sampleDB) ∧
    ((∃ p, sampleDB.posts.find? (fun q => q.id == 11) = some p ∧ p.user_id = bobU.id) ∧
      (true, "Post deleted successfully") = (true, "Post deleted successfully") ∧
      ∀ q ∈ (delete_post sampleDB bobU 11).2.posts, q.id ≠ 11) ∧
    (delete_comment sampleDB bobU 99 = (.error (.notFound "Comment not found"), sampleDB)) ∧
    (delete_comment sampleDB bobU 40 = (.error (.forbidden "Not your comment"), sampleDB)) ∧
    ((delete_comment sampleDB aliceU 40).1 = .ok "Comment deleted" ∧
      ∀ d ∈ (delete_comment sampleDB aliceU 40).2.comments, d.id ≠ 40) ∧
    (∃ c, sampleDB.comments.find? (fun d => d.id == 40) = some c ∧
      c.user_id = aliceU.id) :=
  ⟨(delete_ownership_checks sampleDB bobU 99 99).1 rfl,
   (delete_ownership_checks sampleDB bobU 10 40).2.1 post1 rfl (by decide),
   (delete_ownership_checks sampleDB aliceU 10 40).2.2.1
     (.internal "IntegrityError: NOT NULL constraint failed: likes.post_id") rfl,
   (delete_ownership_checks sampleDB bobU 11 40).2.2.2.1
     (true, "Post deleted successfully") rfl,
   (delete_ownership_checks sampleDB bobU 99 99).2.2.2.2.1 rfl,
   (delete_ownership_checks sampleDB bobU 10 40).2.2.2.2.2.1 comment1 rfl (by decide),
   (delete_ownership_checks sampleDB aliceU 10 40).2.2.2.2.2.2.1 comment1 rfl (by decide),
   (delete_ownership_checks sampleDB aliceU 10 40).2.2.2.2.2.2.2.1
     "Comment deleted" rfl⟩

/-- A minimal post used in the concrete three-post feed-ordering store. -/
def tpost (i t : Nat) : PostR :=
  { id := i, user_id := 1, caption := none, url := "u", file_type := "image",
    file_name := "f", created_at := t }

/-- A store holding exactly three posts created at `t1`, `t2`, `t3`. -/
def threeDB (t1 t2 t3 : Nat) : DB :=
  { users := [aliceU], posts := [tpost 1 t1, tpost 2 t2, tpost 3 t3],
    likes := [], comments := [] }

/-- C4: every feed is sorted non-increasingly by creation timestamp (so for
positions `i < j` the timestamp at `i` is ≥ the one at `j`), and a store of
three posts created at `t1 < t2 < t3` is returned as `[t3, t2, t1]`. -/
theorem feed_ordering (db : DB) (u : Option UserR) (t1 t2 t3 : Nat)
    (h12 : t1 < t2) (h23 : t2 < t3) :
    (get_feed db u).Pairwise (fun a b => b.created_at ≤ a.created_at) ∧
    (get_feed (threeDB t1 t2 t3) none).map (fun e => (e.id, e.created_at)) =
      [(3, t3), (2, t2), (1, t1)] := by
  constructor
  · have hs : (sortByCreatedDesc db.posts).Pairwise createdDesc :=
      List.sorted_insertionSort createdDesc db.posts
    exact List.Pairwise.map (feedEntry db u) (fun a b hab => hab) hs
  · have hc12 : ¬ createdDesc (tpost 1 t1) (tpost 2 t2) := by
      simp only [createdDesc, tpost, not_le]
      omega
    have hc13 : ¬ createdDesc (tpost 1 t1) (tpost 3 t3) := by
      simp only [createdDesc, tpost, not_le]
      omega
    have hc23 : ¬ createdDesc (tpost 2 t2) (tpost 3 t3) := by
      simp only [createdDesc, tpost, not_le]
      omega
    have e1 : sortByCreatedDesc [tpost 1 t1, tpost 2 t2, tpost 3 t3] =
        [tpost 3 t3, tpost 2 t2, tpost 1 t1] := by
      simp [sortByCreatedDesc, List.insertionSort, List.orderedInsert, hc12, hc13, hc23]
    show ((sortByCreatedDesc (threeDB t1 t2 t3).posts).map
        (feedEntry (threeDB t1 t2 t3) none)).map (fun e => (e.id, e.created_at)) = _
    rw [show (threeDB t1 t2 t3).posts = [tpost 1 t1, tpost 2 t2, tpost 3 t3] from rfl, e1]
    simp [feedEntry, tpost]

/-- C4 witness at timestamps 1 < 2 < 3. -/
theorem feed_ordering_witness :
    (1 < 2 ∧ 2 < 3) ∧
    ((get_feed sampleDB (some aliceU)).Pairwise
        (fun a b => b.created_at ≤ a.created_at) ∧
      (get_feed (threeDB 1 2 3) none).map (fun e => (e.id, e.created_at)) =
        [(3, 3), (2, 2), (1, 1)]) :=
  ⟨⟨by decide, by decide⟩,
    feed_ordering sampleDB (some aliceU) 1 2 3 (by decide) (by decide)⟩

/-- C5: when the upload collaborator answers with a non-success status, the
store is unchanged (no Post row is written) and the temporary local file is
gone; moreover on every exit path — success, failure status, or an exception
raised before or after the temporary file exists — the temporary file does
not survive the request. -/
theorem upload_failure_no_post_and_cleanup (db : DB) (u : UserR)
    (caption ct : String) (r : UploadResult) (nid now : Nat)
    (h : r.http_status_code ≠ 200) :
    (upload_file db u caption ct (.collabReturns r) nid now).db = db ∧
    (upload_file db u caption ct (.collabReturns r) nid now).tempExistsAfter = false ∧
    ∀ s : UploadScenario,
      (upload_file db u caption ct s nid now).tempExistsAfter = false := by
  refine ⟨by simp [upload_file, h], by simp [upload_file, h], ?_⟩
  intro s
  cases s with
  | raiseBeforeTemp m => rfl
  | raiseAfterTemp m => rfl
  | collabReturns r2 =>
    by_cases h2 : r2.http_status_code = 200
    · simp [upload_file, h2]
    · simp [upload_file, h2]

/-- C5 witness: a status-500 collaborator answer. -/
theorem upload_failure_no_post_and_cleanup_witness :
    (UploadResult.mk 500 "http://cdn/x" "x").http_status_code ≠ 200 ∧
    ((upload_file sampleDB aliceU "c" "image/png"
        (.collabReturns ⟨500, "http://cdn/x", "x"⟩) 90 900).db = sampleDB ∧
      (upload_file sampleDB aliceU "c" "image/png"
        (.collabReturns ⟨500, "http://cdn/x", "x"⟩) 90 900).tempExistsAfter = false ∧
      ∀ s : UploadScenario,
        (upload_file sampleDB aliceU "c" "image/png" s 90 900).tempExistsAfter = false) :=
  ⟨by decide,
    upload_failure_no_post_and_cleanup sampleDB aliceU "c" "image/png"
      ⟨500, "http://cdn/x", "x"⟩ 90 900 (by decide)⟩

/-- C6: at the failing input — the collaborator answers status 500 — the
handler returns the implicit `None` (FastAPI: HTTP 200 with null body) and
raises no `HTTPException` at all: the `if ... == 200` in `upload_file` has
no `else`, so the claimed 500-equivalent error never happens for a
non-success collaborator status. -/
theorem upload_nonsuccess_returns_null :
    (upload_file sampleDB aliceU "c" "image/png"
        (.collabReturns ⟨500, "http://cdn/x", "x"⟩) 90 900).response = .ok none ∧
    (∀ e : ApiError,
      (upload_file sampleDB aliceU "c" "image/png"
        (.collabReturns ⟨500, "http://cdn/x", "x"⟩) 90 900).response ≠ .error e) ∧
    (upload_file sampleDB aliceU "c" "image/png"
        (.raiseAfterTemp "io error") 90 900).response = .error (.internal "io error") ∧
    (upload_file sampleDB aliceU "c" "image/png"
        (.collabReturns ⟨200, "http://cdn/x", "x"⟩) 90 900).response =
      .ok (some { id := 90, user_id := 1, caption := some "c", url := "http://cdn/x",
                  file_type := "image", file_name := "x", created_at := 900 }) := by
  refine ⟨rfl, ?_, rfl, rfl⟩
  intro e he
  rw [show (upload_file sampleDB aliceU "c" "image/png"
      (.collabReturns ⟨500, "http://cdn/x", "x"⟩) 90 900).response = .ok none from rfl] at he
  exact Except.noConfusion he

/-- C7 counterexample: a comment with empty content on the existing post 10
is accepted and appends a Comment row with empty content — `add_comment`
has no non-emptiness check, refuting "a request with empty content does not
create a Comment row". -/
theorem add_comment_empty_content_creates_row :
    (add_comment sampleDB bobU 10 "" 50 300).1 =
      .ok { id := 50, content := "", user_email := "bob",
            created_at := 300, is_owner := true } ∧
    (add_comment sampleDB bobU 10 "" 50 300).2.comments =
      [comment1, ⟨50, 10, bobU.id, "", 300⟩] :=
  ⟨rfl, rfl⟩

/-- C7 amended: add-comment validates only that the post exists, never the
content: for any content string — the empty string included — it succeeds
and appends exactly one Comment row carrying that content verbatim (so a
stored comment's content is whatever the request sent, possibly empty). -/
theorem add_comment_stores_any_content (db : DB) (u : UserR) (pid : Nat)
    (content : String) (cid now : Nat) (hpost : ∃ p ∈ db.posts, p.id = pid) :
    add_comment db u pid content cid now =
      (.ok { id := cid, content := content, user_email := emailLocal u.email,
             created_at := now, is_owner := true },
        { db with comments := db.comments ++ [⟨cid, pid, u.id, content, now⟩] }) := by
  obtain ⟨p, hp, hpid⟩ := hpost
  obtain ⟨q, hq⟩ : ∃ q, db.posts.find? (fun r => r.id == pid) = some q := by
    apply Option.isSome_iff_exists.mp
    rw [List.find?_isSome]
    exact ⟨p, hp, by simp [hpid]⟩
  simp [add_comment, hq]

/-- C7 amended witness: an empty comment on post 11. -/
theorem add_comment_stores_any_content_witness :
    (∃ p ∈ sampleDB.posts, p.id = 11) ∧
    add_comment sampleDB aliceU 11 "" 51 301 =
      (.ok { id := 51, content := "", user_email := emailLocal aliceU.email,
             created_at := 301, is_owner := true },
        { sampleDB with comments := sampleDB.comments ++ [⟨51, 11, aliceU.id, "", 301⟩] }) :=
  ⟨⟨post2, by decide, by decide⟩,
    add_comment_stores_any_content sampleDB aliceU 11 "" 51 301
      ⟨post2, by decide, by decide⟩⟩

/-- C8: the email shown for an author is always `emailLocal` of the stored
email — the part of the email before the first `@`: the feed entry of a post
whose author row is in the user table shows it, and a successful add-comment
response shows it for the caller. -/
theorem email_local_part_shown (db : DB) (u : Option UserR) (p : PostR)
    (author : UserR) (hp : p ∈ db.posts)
    (ha : db.users.find? (fun w => w.id == p.user_id) = some author)
    (caller : UserR) (pid cid now : Nat) (content : String)
    (resp : CommentResponse) (db2 : DB)
    (hresp : add_comment db caller pid content cid now = (.ok resp, db2)) :
    feedEntry db u p ∈ get_feed db u ∧
    (feedEntry db u p).email = emailLocal author.email ∧
    resp.user_email = emailLocal caller.email := by
  refine ⟨?_, ?_, ?_⟩
  · exact List.mem_map_of_mem _
      (((List.perm_insertionSort createdDesc db.posts).mem_iff).mpr hp)
  · simp [feedEntry, ha]
  · rw [add_comment] at hresp
    cases hfind : db.posts.find? (fun q => q.id == pid) with
    | none =>
      rw [hfind] at hresp
      simp at hresp
    | some q =>
      rw [hfind] at hresp
      simp only [Prod.mk.injEq, Except.ok.injEq] at hresp
      rw [← hresp.1]

/-- C8 witness: Alice authors post 1 (email local part "alice"); Bob
comments on post 11 (email local part "bob"). -/
theorem email_local_part_shown_witness :
    post1 ∈ sampleDB.posts ∧
    sampleDB.users.find? (fun w => w.id == post1.user_id) = some aliceU ∧
    add_comment sampleDB bobU 11 "yo" 52 302 =
      (.ok { id := 52, content := "yo", user_email := "bob",
             created_at := 302, is_owner := true },
        { sampleDB with comments := sampleDB.comments ++ [⟨52, 11, 2, "yo", 302⟩] }) ∧
    (feedEntry sampleDB none post1 ∈ get_feed sampleDB none ∧
      (feedEntry sampleDB none post1).email = emailLocal aliceU.email ∧
      ({ id := 52, content := "yo", user_email := "bob", created_at := 302,
         is_owner := true } : CommentResponse).user_email = emailLocal bobU.email) :=
  ⟨by decide, by decide, rfl,
    email_local_part_shown sampleDB none post1 aliceU (by decide) (by decide)
      bobU 11 52 302 "yo" _ _ rfl⟩

/-- The schema invariant of `db.py`'s likes table,
`UniqueConstraint("user_id", "post_id")`: no two Like rows share the
(user id, post id) pair. -/
def LikesUnique (db : DB) : Prop :=
  db.likes.Pairwise (fun a b => ¬(a.user_id = b.user_id ∧ a.post_id = b.post_id))

/-- C9: starting from a store where (user id, post id) is unique over Like
rows, every operation — like, unlike, delete post, add comment, delete
comment, upload — preserves that uniqueness (the feed reads the store and
returns no modified store at all), so a user keeps at most one Like per
post. -/
theorem like_pair_unique_preserved (db : DB) (h : LikesUnique db) (u : UserR)
    (pid cid nid now : Nat) (caption ct content : String) (s : UploadScenario) :
    LikesUnique (like_post db u pid nid now).2 ∧
    LikesUnique (unlike_post db u pid).2 ∧
    LikesUnique (delete_post db u pid).2 ∧
    LikesUnique (add_comment db u pid content cid now).2 ∧
    LikesUnique (delete_comment db u cid).2 ∧
    LikesUnique (upload_file db u caption ct s nid now).db := by
  refine ⟨?_, ?_, ?_, ?_, ?_, ?_⟩
  · cases hfp : db.posts.find? (fun p => p.id == pid) with
    | none => simpa [like_post, hfp] using h
    | some p =>
      cases hfl : db.likes.find? (fun l => l.user_id == u.id && l.post_id == pid) with
      | some l => simpa [like_post, hfp, hfl] using h
      | none =>
        have hnone := List.find?_eq_none.mp hfl
        have hnew : LikesUnique { db with likes := db.likes ++ [⟨nid, u.id, pid, now⟩] } := by
          rw [LikesUnique, List.pairwise_append]
          refine ⟨h, by simp, ?_⟩
          intro a ha b hb
          simp only [List.mem_singleton] at hb
          subst hb
          have hne := hnone a ha
          simp only [Bool.and_eq_true, beq_iff_eq, not_and] at hne
          rintro ⟨h1, h2⟩
          exact hne h1 h2
        simpa [like_post, hfp, hfl] using hnew
  · cases hfl : db.likes.find? (fun l => l.user_id == u.id && l.post_id == pid) with
    | none => simpa [unlike_post, hfl] using h
    | some l =>
      have hsub : LikesUnique { db with likes := db.likes.filter (fun x => x.id != l.id) } :=
        List.Pairwise.sublist (List.filter_sublist _) h
      simpa [unlike_post, hfl] using hsub
  · cases hfp : db.posts.find? (fun p => p.id == pid) with
    | none => simpa [delete_post, hfp] using h
    | some p =>
      by_cases hown : p.user_id = u.id
      · by_cases hl : postLikes db pid = []
        · simpa [delete_post, hfp, hown, hl, deletePostCascade] using h
        · simpa [delete_post, hfp, hown, hl] using h
      · simpa [delete_post, hfp, hown] using h
  · cases hfp : db.posts.find? (fun p => p.id == pid) with
    | none => simpa [add_comment, hfp] using h
    | some p => simpa [add_comment, hfp] using h
  · cases hfc : db.comments.find? (fun c => c.id == cid) with
    | none => simpa [delete_comment, hfc] using h
    | some c =>
      by_cases hown : c.user_id = u.id
      · simpa [delete_comment, hfc, hown] using h
      · simpa [delete_comment, hfc, hown] using h
  · cases s with
    | raiseBeforeTemp m => simpa [upload_file] using h
    | raiseAfterTemp m => simpa [upload_file] using h
    | collabReturns r =>
      by_cases h2 : r.http_status_code = 200
      · simpa [upload_file, h2] using h
      · simpa [upload_file, h2] using h

/-- C9 witness: the concrete store satisfies the invariant, and each
operation applied to it keeps satisfying it. -/
theorem like_pair_unique_preserved_witness :
    LikesUnique sampleDB ∧
    (LikesUnique (like_post sampleDB aliceU 10 91 901).2 ∧
      LikesUnique (unlike_post sampleDB aliceU 10).2 ∧
      LikesUnique (delete_post sampleDB aliceU 10).2 ∧
      LikesUnique (add_comment sampleDB aliceU 10 "hey" 92 902).2 ∧
      LikesUnique (delete_comment sampleDB aliceU 40).2 ∧
      LikesUnique (upload_file sampleDB aliceU "c" "video/mp4"
        (.collabReturns ⟨200, "http://cdn/v", "v"⟩) 93 903).db) :=
  ⟨by simp [LikesUnique, sampleDB],
    like_pair_unique_preserved sampleDB (by simp [LikesUnique, sampleDB]) aliceU
      10 40 91 901 "c" "video/mp4" "hey" (.collabReturns ⟨200, "http://cdn/v", "v"⟩)⟩

/-- C10 counterexample: Alice owns post 10 but Bob's Like row references it.
`Post.likes` declares no delete cascade, so the flush nullifies the
`nullable=False` column `likes.post_id` and the commit raises
`IntegrityError`: the request fails as a 500 with the store unchanged —
post 10 and its comment 40 both survive, refuting the claim that the
delete-post operation removes the post's Comment rows while the Like rows
merely survive: the deletion itself never happens. -/
theorem delete_liked_post_errors :
    delete_post sampleDB aliceU 10 =
      (.error (.internal "IntegrityError: NOT NULL constraint failed: likes.post_id"),
        sampleDB) ∧
    like1 ∈ sampleDB.likes ∧ like1.post_id = 10 ∧
    post1.user_id = aliceU.id ∧
    post1 ∈ (delete_post sampleDB aliceU 10).2.posts ∧
    comment1 ∈ (delete_post sampleDB aliceU 10).2.comments :=
  ⟨rfl, by decide, rfl, rfl, by decide, by decide⟩

/-- C10 amended: for an owner's delete of a post with no Like rows
referencing it, the post row and exactly its Comment rows are removed (the
declared cascade), while the likes table and the user table are untouched
and every other post and comment survives; when Like rows do reference the
post, no cascade being declared on `Post.likes`, the delete fails with the
IntegrityError-driven 500 and the whole store — likes included — is
unchanged.  In neither case are Like rows cascade-deleted. -/
theorem delete_post_cascade_frame (db : DB) (u : UserR) (pid : Nat) (p : PostR)
    (hfind : db.posts.find? (fun q => q.id == pid) = some p)
    (hown : p.user_id = u.id) :
    (postLikes db pid = [] →
      (delete_post db u pid).1 = .ok (true, "Post deleted successfully") ∧
      (∀ c : CommentR, c ∈ (delete_post db u pid).2.comments ↔
        c ∈ db.comments ∧ c.post_id ≠ pid) ∧
      (delete_post db u pid).2.likes = db.likes ∧
      (delete_post db u pid).2.users = db.users ∧
      (∀ q : PostR, q ∈ (delete_post db u pid).2.posts ↔
        q ∈ db.posts ∧ q.id ≠ pid)) ∧
    (postLikes db pid ≠ [] →
      delete_post db u pid =
        (.error (.internal "IntegrityError: NOT NULL constraint failed: likes.post_id"),
          db)) := by
  constructor
  · intro hl
    refine ⟨by simp [delete_post, hfind, hown, hl], ?_, ?_, ?_, ?_⟩ <;>
      simp [delete_post, hfind, hown, hl, deletePostCascade, List.mem_filter]
  · intro hl
    simp [delete_post, hfind, hown, hl]

/-- C10 witness: Bob deletes his like-free post 11 — it and only it goes,
comment 40 (on post 10) stays, likes and users stay; Alice's delete of her
post 10, which Bob likes, fails with the IntegrityError 500 and changes
nothing. -/
theorem delete_post_cascade_frame_witness :
    (sampleDB.posts.find? (fun q => q.id == 11) = some post2 ∧
      post2.user_id = bobU.id ∧
      postLikes sampleDB 11 = [] ∧ postLikes sampleDB 10 ≠ []) ∧
    ((delete_post sampleDB bobU 11).1 = .ok (true, "Post deleted successfully") ∧
      (∀ c : CommentR, c ∈ (delete_post sampleDB bobU 11).2.comments ↔
        c ∈ sampleDB.comments ∧ c.post_id ≠ 11) ∧
      (delete_post sampleDB bobU 11).2.likes = sampleDB.likes ∧
      (delete_post sampleDB bobU 11).2.users = sampleDB.users ∧
      (∀ q : PostR, q ∈ (delete_post sampleDB bobU 11).2.posts ↔
        q ∈ sampleDB.posts ∧ q.id ≠ 11)) ∧
    delete_post sampleDB aliceU 10 =
      (.error (.internal "IntegrityError: NOT NULL constraint failed: likes.post_id"),
        sampleDB) :=
  ⟨⟨by decide, by decide, by decide, by decide⟩,
   (delete_post_cascade_frame sampleDB bobU 11 post2 (by decide) (by decide)).1
     (by decide),
   (delete_post_cascade_frame sampleDB aliceU 10 post1 (by decide) (by decide)).2
     (by decide)⟩

end MiniSocial
